import Mathlib

/-!
Verification of the recovery engine (`src/box/recovery.cc`), the module
cache (`src/box/module_cache.c`) and the function dispatcher
(`src/box/func.c`) of the tarantool slice.

The embedding is shallow: each C function that a claim mentions is
translated into a Lean function over explicit state.  Code outside the
repository slice (the vclock algebra of `vclock.h`, the xlog cursor and
the log-directory index of `xlog.c`, the intrusive `rlist`) is modelled
from the specification, as noted on each definition; every branch of the
in-slice functions is translated from the C source.
-/

namespace Tnt

/-! ## Vclock algebra

Modelled from the spec: a vclock is a finite mapping from `replica_id`
to `lsn` (spec section 3); we represent it as a list indexed by
`replica_id`, absent components read as `0`.  `signature` is the sum of
the components.  Ordering is the componentwise partial order; the
comparison function follows the convention documented in
`recovery.cc` (`recovery_open_log`): a pair that is incomparable
compares "greater than" (the undefined order is a large positive
value), and never compares "less than".
-/

abbrev Vclock := List Int

/-- Component of a vclock; absent components are 0. -/
def vclock_get : Vclock → Nat → Int
  | [], _ => 0
  | x :: _, 0 => x
  | _ :: rest, i+1 => vclock_get rest i

/-- Set one component, extending the mapping with zeros as needed. -/
def vclock_set : Vclock → Nat → Int → Vclock
  | _ :: rest, 0, lsn => lsn :: rest
  | x :: rest, i+1, lsn => x :: vclock_set rest i lsn
  | [], 0, lsn => [lsn]
  | [], i+1, lsn => 0 :: vclock_set [] i lsn

/-- `signature(V) = Σ lsn` (spec section 3). -/
def vclock_sum (v : Vclock) : Int := v.foldl (fun a x => a + x) 0

/-- The componentwise order on vclocks (spec section 3). -/
def vclock_le (a b : Vclock) : Prop := ∀ i, vclock_get a i ≤ vclock_get b i

/-- All components nonnegative (the empty clock is below). -/
def vclock_nonneg : Vclock → Bool
  | [] => true
  | y :: ys => decide ((0:Int) ≤ y) && vclock_nonneg ys

/-- Executable componentwise order. -/
def vclock_leb : Vclock → Vclock → Bool
  | [], ys => vclock_nonneg ys
  | x :: xs, [] => decide (x ≤ (0:Int)) && vclock_leb xs []
  | x :: xs, y :: ys => decide (x ≤ y) && vclock_leb xs ys

/-- The undefined order: incomparable vclocks compare as a large
positive value (so `compare > 0` means "greater or incomparable", as
the comment in `recovery_open_log` describes). -/
def VCLOCK_ORDER_UNDEFINED : Int := 2147483647

/-- Three-way comparison of vclocks: `0` equal, `-1` strictly less,
`1` strictly greater, `VCLOCK_ORDER_UNDEFINED` incomparable. -/
def vclock_compare (a b : Vclock) : Int :=
  if vclock_leb a b && vclock_leb b a then 0
  else if vclock_leb a b then -1
  else if vclock_leb b a then 1
  else VCLOCK_ORDER_UNDEFINED

theorem vclock_get_set_self : ∀ (i : Nat) (v : Vclock) (lsn : Int),
    vclock_get (vclock_set v i lsn) i = lsn
  | 0, [], _ => rfl
  | 0, _ :: _, _ => rfl
  | i+1, [], lsn => vclock_get_set_self i [] lsn
  | i+1, _ :: rest, lsn => vclock_get_set_self i rest lsn

theorem vclock_get_set_ne : ∀ (i j : Nat) (v : Vclock) (lsn : Int), i ≠ j →
    vclock_get (vclock_set v i lsn) j = vclock_get v j := by
  intro i
  induction i with
  | zero =>
    intro j v lsn h
    cases j with
    | zero => exact absurd rfl h
    | succ j => cases v <;> rfl
  | succ i ih =>
    intro j v lsn h
    cases j with
    | zero => cases v <;> rfl
    | succ j =>
      cases v with
      | nil => exact ih j [] lsn (by omega)
      | cons x r => exact ih j r lsn (by omega)

theorem vclock_le_refl (a : Vclock) : vclock_le a a := fun _ => le_refl _

theorem vclock_le_trans {a b c : Vclock} (h1 : vclock_le a b) (h2 : vclock_le b c) :
    vclock_le a c := fun i => le_trans (h1 i) (h2 i)

theorem vclock_le_set {v : Vclock} {i : Nat} {lsn : Int}
    (h : vclock_get v i ≤ lsn) : vclock_le v (vclock_set v i lsn) := by
  intro j
  by_cases hij : i = j
  · subst hij
    rw [vclock_get_set_self]
    exact h
  · rw [vclock_get_set_ne i j v lsn hij]

theorem vclock_nonneg_iff : ∀ (b : Vclock),
    vclock_nonneg b = true ↔ vclock_le [] b := by
  intro b
  induction b with
  | nil =>
    simp only [vclock_nonneg]
    constructor
    · intro _ i
      cases i <;> exact le_refl 0
    · intro _
      trivial
  | cons y ys ihb =>
    simp only [vclock_nonneg, Bool.and_eq_true, decide_eq_true_eq, ihb]
    constructor
    · rintro ⟨h0, hrest⟩ i
      cases i with
      | zero => exact h0
      | succ i => exact hrest i
    · intro h
      exact ⟨h 0, fun i => h (i+1)⟩

theorem vclock_leb_iff : ∀ (a b : Vclock), vclock_leb a b = true ↔ vclock_le a b := by
  intro a
  induction a with
  | nil =>
    intro b
    simp only [vclock_leb]
    exact vclock_nonneg_iff b
  | cons x xs iha =>
    intro b
    cases b with
    | nil =>
      simp only [vclock_leb, Bool.and_eq_true, decide_eq_true_eq, iha []]
      constructor
      · rintro ⟨h0, hrest⟩ i
        cases i with
        | zero => exact h0
        | succ i => exact hrest i
      · intro h
        exact ⟨h 0, fun i => h (i+1)⟩
    | cons y ys =>
      simp only [vclock_leb, Bool.and_eq_true, decide_eq_true_eq, iha ys]
      constructor
      · rintro ⟨h0, hrest⟩ i
        cases i with
        | zero => exact h0
        | succ i => exact hrest i
      · intro h
        exact ⟨h 0, fun i => h (i+1)⟩

/-- Case split on the result of `vclock_compare` with the order facts of
each case. -/
theorem vclock_compare_cases (a b : Vclock) :
    (vclock_compare a b = 0 ∧ vclock_le a b ∧ vclock_le b a) ∨
    (vclock_compare a b = -1 ∧ vclock_le a b) ∨
    (vclock_compare a b = 1 ∧ vclock_le b a) ∨
    vclock_compare a b = VCLOCK_ORDER_UNDEFINED := by
  cases hab : vclock_leb a b <;> cases hba : vclock_leb b a
  · exact Or.inr (Or.inr (Or.inr (by simp [vclock_compare, hab, hba])))
  · exact Or.inr (Or.inr (Or.inl
      ⟨by simp [vclock_compare, hab, hba], (vclock_leb_iff b a).mp hba⟩))
  · exact Or.inr (Or.inl
      ⟨by simp [vclock_compare, hab, hba], (vclock_leb_iff a b).mp hab⟩)
  · exact Or.inl ⟨by simp [vclock_compare, hab, hba],
      (vclock_leb_iff a b).mp hab, (vclock_leb_iff b a).mp hba⟩

theorem vclock_compare_lt_zero {a b : Vclock} (h : vclock_compare a b < 0) :
    vclock_le a b := by
  rcases vclock_compare_cases a b with ⟨he, _, _⟩ | ⟨_, hle⟩ | ⟨he, _⟩ | he
  · rw [he] at h
    exact absurd h (by decide)
  · exact hle
  · rw [he] at h
    exact absurd h (by decide)
  · rw [he] at h
    exact absurd h (by decide)

/-! ## Recovery data model

`struct recovery` of `recovery.cc`, together with the parts of the xlog
cursor it owns.  The cursor (its states, its meta header with starting
vclock and optional `prev_vclock`) is modelled from the spec (sections
3 and 4.1): states `{NEW, OPEN, EOF, CLOSED}`; `close` preserves the
meta.  The unread part of the open segment is carried as a list of rows
plus the return code the cursor hands back once the rows run out
(`read_rc`, `1` on a clean end, negative on a read error), and whether
the EOF marker was read at that point (`eof_after`).  The current task
diagnostic (`diag_set`) is carried in the state; diagnostics produced
by code outside the slice (the xstream, the xlog reader, the on-close
triggers, the directory scan) are collapsed into `Diag.external`.
-/

inductive Diag where
  | outOfMemory
  | xlogGap (cur stop : Vclock)
  | clientError (msg : String)
  | external
deriving Repr, DecidableEq

/-- A log row; fields the recovery driver reads.  (`group_id` only
appears in an assertion tying `replica_id == 0` to local rows and is
not needed by any claim.) -/
structure Row where
  replica_id : Nat
  lsn : Int
deriving Repr, DecidableEq

inductive CursorState where
  | NEW
  | OPEN
  | EOF
  | CLOSED
deriving Repr, DecidableEq

def cursor_is_open : CursorState → Bool
  | .OPEN => true
  | .EOF => true
  | _ => false

def cursor_is_eof : CursorState → Bool
  | .EOF => true
  | _ => false

structure Recovery where
  vclock : Vclock
  force_recovery : Bool
  cursor_state : CursorState
  cursor_meta_vclock : Vclock
  cursor_meta_prev : Option Vclock
  cursor_rows : List Row
  cursor_read_rc : Int
  cursor_eof_after : Bool
  diag : Option Diag
deriving Repr, DecidableEq

/-- One segment as the directory index hands it to the driver: its
header (starting vclock, optional `prev_vclock`), its rows, the
cursor's terminal read outcome, and the outcomes of the external calls
made while switching to it (`xdir_open_cursor`, the on-close triggers
run when the previously open log is closed). -/
structure Segment where
  vclock : Vclock
  prev_vclock : Option Vclock
  rows : List Row
  read_rc : Int
  eof_after : Bool
  open_ok : Bool
  close_trigger_ok : Bool
deriving Repr, DecidableEq

/-! ## recover_xlog -/

/-- The stop test of `recover_xlog`:
`r->vclock.signature >= stop_vclock->signature`. -/
def stop_reached (stop : Option Vclock) (v : Vclock) : Bool :=
  match stop with
  | some s => decide (vclock_sum s ≤ vclock_sum v)
  | none => false

/-- Result of `recover_xlog`: the recovery vclock, the rows emitted to
the stream, the return code, the rows left unread in the cursor, and
whether the loop ran the cursor dry (so that the cursor's terminal
state is reached). -/
structure XlogRes where
  vclock : Vclock
  emitted : List Row
  rc : Int
  rest : List Row
  hit_end : Bool
  diag : Option Diag
deriving Repr, DecidableEq

/-- `recover_xlog` (recovery.cc:251-311).  `rows` are the rows the
cursor still yields, `final_rc` is what `xlog_cursor_next` returns once
they run out.  The loop: read a row; if the stop signature is reached
return 0; skip the row if already applied; otherwise follow the vclock
and write the row to the stream; a failed write is fatal in strict mode
and skipped (after the vclock already advanced) under force_recovery. -/
def recover_xlog (force : Bool) (writeOk : Row → Bool) (stop : Option Vclock)
    (final_rc : Int) : List Row → Vclock → Option Diag → XlogRes
  | [], v, d =>
    ⟨v, [], final_rc, [], true, if final_rc < 0 then some Diag.external else d⟩
  | row :: rest, v, d =>
    if stop_reached stop v then ⟨v, [], 0, rest, false, d⟩
    else if row.lsn ≤ vclock_get v row.replica_id then
      -- already applied, skip
      recover_xlog force writeOk stop final_rc rest v d
    else
      -- vclock_follow_xrow before xstream_write
      if writeOk row then
        let res := recover_xlog force writeOk stop final_rc rest
          (vclock_set v row.replica_id row.lsn) d
        { res with emitted := row :: res.emitted }
      else if force then
        -- "skipping row": logged, row dropped, clock already advanced
        recover_xlog force writeOk stop final_rc rest
          (vclock_set v row.replica_id row.lsn) (some Diag.external)
      else
        ⟨vclock_set v row.replica_id row.lsn, [], -1, rest, false,
          some Diag.external⟩

/-! ## recovery_open_log and recovery_close_log -/

/-- `recovery_close_log` (recovery.cc:152-168): if the cursor is open,
close it and run the on-close triggers; a trigger failure is an
error. -/
def recovery_close_log (r : Recovery) (trigger_ok : Bool) : Recovery × Int :=
  if cursor_is_open r.cursor_state then
    if trigger_ok then ({ r with cursor_state := .CLOSED }, 0)
    else ({ r with cursor_state := .CLOSED, diag := some Diag.external }, -1)
  else (r, 0)

/-- The gap test of `recovery_open_log` (recovery.cc:183-202), on the
cursor state and meta saved on entry: a first open whose segment clock
is greater than or incomparable with the recovery clock, or a later
open whose `prev_vclock` is set and differs from the previous
segment's starting vclock. -/
def open_log_gap (r : Recovery) (seg : Segment) : Bool :=
  (r.cursor_state == .NEW && decide (0 < vclock_compare seg.vclock r.vclock)) ||
  (r.cursor_state != .NEW &&
    (match seg.prev_vclock with
     | some pv => vclock_compare pv r.cursor_meta_vclock != 0
     | none => false))

/-- `recovery_open_log` (recovery.cc:170-225): save the cursor state
and meta, close the current log, open the next segment, run the gap
checks (fatal in strict mode, a logged warning under force_recovery),
and in the `out:` epilogue promote the recovery vclock when it compares
strictly less than the opened segment's starting vclock. -/
def recovery_open_log (r : Recovery) (seg : Segment) : Recovery × Int :=
  let closed := recovery_close_log r seg.close_trigger_ok
  if closed.2 ≠ 0 then (closed.1, -1)
  else if !seg.open_ok then ({ closed.1 with diag := some Diag.external }, -1)
  else
    -- the gap checks run on the state/meta saved on entry; a gap sets
    -- `XlogGapError` in both modes and is fatal only in strict mode
    let rc : Int :=
      if open_log_gap r seg then (if r.force_recovery then 0 else -1) else 0
    let r2 : Recovery :=
      { closed.1 with
        cursor_state := .OPEN,
        cursor_meta_vclock := seg.vclock,
        cursor_meta_prev := seg.prev_vclock,
        cursor_rows := seg.rows,
        cursor_read_rc := seg.read_rc,
        cursor_eof_after := seg.eof_after,
        diag := if open_log_gap r seg then
            some (Diag.xlogGap r.vclock seg.vclock)
          else closed.1.diag }
    -- out: promote the recovery clock
    if vclock_compare r2.vclock seg.vclock < 0 then
      ({ r2 with vclock := seg.vclock }, rc)
    else (r2, rc)

/-! ## recover_remaining_wals -/

/-- Fold an `XlogRes` back into the recovery state: the vclock and the
diagnostic advance, the unread rows stay in the cursor, and if the loop
ran the cursor dry the cursor latches EOF when the EOF marker was
read. -/
def apply_xlog_res (r : Recovery) (x : XlogRes) : Recovery :=
  { r with
    vclock := x.vclock,
    diag := x.diag,
    cursor_rows := x.rest,
    cursor_state :=
      if x.hit_end && r.cursor_eof_after then .EOF else r.cursor_state }

/-- The per-segment stop test of the `recover_remaining_wals` loop:
`clock->signature >= stop_vclock->signature`. -/
def stop_seg (stop : Option Vclock) (seg : Segment) : Bool :=
  match stop with
  | some s => decide (vclock_sum s ≤ vclock_sum seg.vclock)
  | none => false

/-- Modelled from the spec (section 4.2): `vclockset_search` of the
directory index, keyed by the open cursor's starting vclock; returns
the segments after the matching one, `none` when the current WAL
disappeared from the directory. -/
def split_after_cursor : List Segment → Vclock → Option (List Segment)
  | [], _ => none
  | seg :: rest, key =>
    if vclock_compare seg.vclock key == 0 then some rest
    else split_after_cursor rest key

/-- Modelled from the spec (section 4.2): `vclockset_match` — the
directory suffix starting at the greatest segment whose starting vclock
is at most the key, the whole directory when there is none. -/
def vclockset_match_suffix (v : Vclock) : List Segment → Option (List Segment)
  | [] => none
  | seg :: rest =>
    match vclockset_match_suffix v rest with
    | some suf => some suf
    | none => if vclock_leb seg.vclock v then some (seg :: rest) else none

def vclockset_match (dir : List Segment) (v : Vclock) : List Segment :=
  (vclockset_match_suffix v dir).getD dir

/-- Result of `recover_remaining_wals` and of its segment loop. -/
structure RRes where
  r : Recovery
  emitted : List Row
  rc : Int
deriving Repr, DecidableEq

/-- The `for` loop of `recover_remaining_wals` (recovery.cc:350-375):
stop at a segment past `stop_vclock`; skip a segment already consumed
by an EOF cursor; otherwise open it and replay it. -/
def rrw_loop (writeOk : Row → Bool) (stop : Option Vclock) :
    Recovery → List Segment → RRes
  | r, [] => ⟨r, [], 0⟩
  | r, seg :: rest =>
    if stop_seg stop seg then ⟨r, [], 0⟩
    else if cursor_is_eof r.cursor_state &&
        decide (vclock_sum seg.vclock ≤ vclock_sum r.cursor_meta_vclock) then
      rrw_loop writeOk stop r rest
    else
      let opened := recovery_open_log r seg
      if opened.2 ≠ 0 then ⟨opened.1, [], -1⟩
      else
        let x := recover_xlog opened.1.force_recovery writeOk stop
          opened.1.cursor_read_rc opened.1.cursor_rows opened.1.vclock
          opened.1.diag
        let r2 := apply_xlog_res opened.1 x
        if x.rc < 0 then ⟨r2, [], -1⟩
        else
          let res := rrw_loop writeOk stop r2 rest
          { res with emitted := x.emitted ++ res.emitted }

/-- `recover_remaining_wals` (recovery.cc:324-389) up to but not
including its final-position check: the optional directory rescan, the
resume-from-open-cursor preamble (recover the current WAL first when it
is still in the index), the segment loop, and the close of an
EOF cursor. -/
def rrw_before_final (writeOk : Row → Bool) (r : Recovery) (dir : List Segment)
    (stop : Option Vclock) (scan_dir scan_ok final_trigger_ok : Bool) : RRes :=
  if scan_dir && !scan_ok then ⟨{ r with diag := some Diag.external }, [], -1⟩
  else
    let loopRes :=
      if cursor_is_open r.cursor_state then
        match split_after_cursor dir r.cursor_meta_vclock with
        | some after =>
          -- goto recover_current_wal
          let x := recover_xlog r.force_recovery writeOk stop
            r.cursor_read_rc r.cursor_rows r.vclock r.diag
          let r2 := apply_xlog_res r x
          if x.rc < 0 then ⟨r2, [], -1⟩
          else
            let res := rrw_loop writeOk stop r2 after
            { res with emitted := x.emitted ++ res.emitted }
        | none =>
          -- current WAL deleted under our feet: continue from the match
          rrw_loop writeOk stop r (vclockset_match dir r.vclock)
      else rrw_loop writeOk stop r (vclockset_match dir r.vclock)
    if loopRes.rc ≠ 0 then loopRes
    else if cursor_is_eof loopRes.r.cursor_state then
      let closed := recovery_close_log loopRes.r final_trigger_ok
      if closed.2 ≠ 0 then ⟨closed.1, loopRes.emitted, -1⟩
      else ⟨closed.1, loopRes.emitted, 0⟩
    else loopRes

/-- `recover_remaining_wals` (recovery.cc:324-389): the loop above
followed by the final-position check, which does not consult
`force_recovery`:
`if (stop_vclock != NULL && vclock_compare(&r->vclock, stop_vclock) != 0)`
sets `XlogGapError` and fails. -/
def recover_remaining_wals (writeOk : Row → Bool) (r : Recovery)
    (dir : List Segment) (stop : Option Vclock)
    (scan_dir scan_ok final_trigger_ok : Bool) : RRes :=
  let res := rrw_before_final writeOk r dir stop scan_dir scan_ok final_trigger_ok
  if res.rc ≠ 0 then res
  else
    match stop with
    | some s =>
      if vclock_compare res.r.vclock s ≠ 0 then
        ⟨{ res.r with diag := some (Diag.xlogGap res.r.vclock s) }, res.emitted, -1⟩
      else res
    | none => res

/-! ## recovery_scan and recovery_new -/

/-- `recovery_scan` (recovery.cc:117-150).  The directory scan and the
cursor walk over the last xlog are external (`xdir_scan`,
`xdir_last_vclock`, `xdir_first_vclock`, `xdir_open_cursor`); their
outcomes are parameters.  The function computes the `end_vclock` and
`gc_vclock` out-parameters; the recovery state itself is returned as
the function leaves it (it only reads `r->vclock` and the directory). -/
def recovery_scan (r : Recovery) (scan_ok : Bool) (dir_last : Option Vclock)
    (dir_first : Vclock) (last_rows : List Row) (open_cursor_ok : Bool) :
    Recovery × Vclock × Vclock × Int :=
  if !scan_ok then (r, [], [], -1)
  else
    match dir_last with
    | none => (r, r.vclock, r.vclock, 0)
    | some lastv =>
      if vclock_compare lastv r.vclock < 0 then
        -- no xlogs after the last checkpoint
        (r, r.vclock, r.vclock, 0)
      else if !open_cursor_ok then
        -- FIXME in the source: cursor-open errors are ignored
        (r, lastv, dir_first, 0)
      else
        (r, last_rows.foldl
          (fun acc row => vclock_set acc row.replica_id row.lsn) lastv,
         dir_first, 0)

inductive RecoveryNewRes where
  /-- `r` allocated and initialized, returned to the caller. -/
  | made (vclock : Vclock) (force : Bool)
  /-- `NULL` returned after `free(r)` (the `xdir_check` failure path). -/
  | failed (diag : Option Diag)
  /-- `calloc` failed: the function sets the diagnostic but then falls
  through to `xdir_create(&r->wal_dir, …)` with `r == NULL`, passing a
  field of the null struct to be written. -/
  | nullDeref (diag : Option Diag)
deriving Repr, DecidableEq

/-- `recovery_new` (recovery.cc:82-115).  Note the allocation-failure
branch: `diag_set(OutOfMemory, …)` is executed but the branch does not
return, so control reaches `xdir_create(&r->wal_dir, …)` with `r` still
`NULL`. -/
def recovery_new (alloc_ok : Bool) (xdir_check_ok : Bool) (force : Bool)
    (v : Vclock) : RecoveryNewRes :=
  if !alloc_ok then RecoveryNewRes.nullDeref (some Diag.outOfMemory)
  else if !xdir_check_ok then RecoveryNewRes.failed (some Diag.external)
  else RecoveryNewRes.made v force

/-! ## Module cache (`module_cache.c`)

Addresses returned by `dlsym` are abstract naturals; a module's export
table is an association list (the `dlsym` of its OS handle).  The
intrusive `rlist` of bindings is a Lean list whose head is the list
head's `next` neighbour: `rlist_add`/`rlist_move` attach at the front,
`rlist_first_entry` is the front, `rlist_foreach_entry_safe` walks
front to back (small/rlist.h semantics).
-/

/-- Characters up to the first dot (used on the reversed name, this is
the text after the last dot, as `strrchr` finds it). -/
def take_before_dot : List Char → List Char
  | [] => []
  | c :: rest => if c = '.' then [] else c :: take_before_dot rest

/-- The `sym` part of `parse_func_name` (module_cache.c:36-49): the text
after the last dot, the whole name when there is no dot. -/
def parse_func_sym (s : String) : String :=
  String.mk ((take_before_dot s.data.reverse).reverse)

/-- `struct module_sym`: the binding of one function name, its resolved
address, and the id of the module it is attached to. -/
structure ModSymState where
  name : String
  addr : Option Nat
  module : Option Nat
deriving Repr, DecidableEq

/-- `struct module` as `module_reload` sees it: an id standing for the
allocation, the export table of its `dlopen` handle, the intrusive list
of attached bindings (front first) and the live-call counter. -/
structure ModuleR where
  id : Nat
  exports : List (String × Nat)
  mod_sym_head : List ModSymState
  calls : Nat
deriving Repr, DecidableEq

/-- The `rlist_foreach_entry_safe` loop of `module_reload`
(module_cache.c:411-425): walk the old module's bindings front to back;
a binding that resolves in the new module is given the new address, the
new module id, and is moved to the front of the new module's list
(`rlist_move`).  Returns the new module's final list on success, or the
failing binding, the new module's list so far, and the rest of the old
list on a `dlsym` miss. -/
def reload_bind_loop (newExports : List (String × Nat)) (newId : Nat) :
    List ModSymState → List ModSymState →
    (List ModSymState) ⊕ (ModSymState × List ModSymState × List ModSymState)
  | [], acc => Sum.inl acc
  | b :: rest, acc =>
    match newExports.lookup (parse_func_sym b.name) with
    | some a =>
      reload_bind_loop newExports newId rest
        ({ b with addr := some a, module := some newId } :: acc)
    | none => Sum.inr (b, acc, rest)

inductive ReloadResult where
  /-- The package was not in the cache: `*module = NULL`, return 0. -/
  | notLoaded
  /-- `module_load` of the new copy failed: return -1. -/
  | loadFail
  /-- Full success: the new module (with every binding moved onto it),
  the old module after its list emptied, and whether `module_gc`
  destroyed the old module (its list is empty, so: iff no call is in
  flight). -/
  | ok (newMod : ModuleR) (oldAfter : ModuleR) (oldDeleted : Bool)
  /-- The `restore:` path: the old module as the rollback leaves it, the
  bindings still attached to the new module when `module_delete(new)`
  runs, and whether `assert(rlist_empty(&new->mod_sym_head))` holds
  there. -/
  | rolledBack (oldAfter : ModuleR) (lostInNew : List ModSymState)
      (assertHolds : Bool)
  /-- `restore:` re-resolving the failing binding in the old module
  failed: the process panics ("server state is inconsistent"). -/
  | fatalRestore
  /-- `module_cache_add(new)` failed after the loop: `goto restore` with
  the loop variable past the end of the list — the C reads through the
  list-head sentinel, outside this model. -/
  | cacheAddRestoreUB
deriving Repr, DecidableEq

/-- `module_reload` (module_cache.c:396-460).  The `restore:` rollback
is a `do { … rlist_move(&old->mod_sym_head, &mod_sym->list); } while
(mod_sym != rlist_first_entry(&old->mod_sym_head, …))`: the loop
variable never changes and `rlist_move` has just re-attached it at the
front of the old list, so the condition is false and the body runs
exactly once, touching only the binding whose resolution failed; the
bindings already moved to the new module stay there when
`module_delete(new)` runs. -/
def module_reload (cache : List (String × ModuleR)) (package : String)
    (load_result : Option (List (String × Nat))) (newId : Nat)
    (cache_add_ok : Bool) : ReloadResult :=
  match cache.lookup package with
  | none => ReloadResult.notLoaded
  | some old =>
    match load_result with
    | none => ReloadResult.loadFail
    | some newExports =>
      match reload_bind_loop newExports newId old.mod_sym_head [] with
      | Sum.inl newList =>
        if !cache_add_ok then ReloadResult.cacheAddRestoreUB
        else
          let old2 : ModuleR := { old with mod_sym_head := [] }
          ReloadResult.ok ⟨newId, newExports, newList, 0⟩ old2
            (old2.mod_sym_head.isEmpty && old2.calls == 0)
      | Sum.inr (b, movedToNew, restOld) =>
        match old.exports.lookup (parse_func_sym b.name) with
        | none => ReloadResult.fatalRestore
        | some a =>
          let b2 : ModSymState := { b with addr := some a, module := some old.id }
          ReloadResult.rolledBack
            { old with mod_sym_head := b2 :: restOld } movedToNew
            movedToNew.isEmpty

/-! ## module_sym_call and module_gc -/

/-- `struct module` as `module_sym_call`/`module_gc` see it: whether any
binding is attached, the live-call counter, and whether the allocation
is still live (`module_delete` closes the handle and frees it). -/
structure ModuleC where
  mod_sym_head : List String
  calls : Nat
  alive : Bool
deriving Repr, DecidableEq

/-- `module_gc` (module_cache.c:283-288): destroy the module only when
its binding list is empty and no call is in flight. -/
def module_gc (m : ModuleC) : ModuleC :=
  if m.mod_sym_head.isEmpty && m.calls == 0 then { m with alive := false }
  else m

structure SymCallRes where
  rc : Int
  module : ModuleC
  diag : Option Diag
  /-- The module's live-call counter while the native function ran;
  `none` when the call was never reached. -/
  calls_at_call : Option Nat
deriving Repr, DecidableEq

/-- `module_sym_call` (module_cache.c:350-394).  `addr` is the cached
symbol address (`NULL` triggers `module_sym_load`, outcome `load_ok`),
`m` is `mod_sym->module` once loaded, `d0` the task diagnostic on
entry; the callee returns `native_rc` and either sets a diagnostic
(`native_diag = some e`, replacing the task diagnostic) or forgets to
(`none`).  The live-call counter is incremented just before the call
and decremented right after it, then `module_gc` runs and the scratch
region is truncated; a non-zero return without a diagnostic gets the
synthetic `ER_PROC_C "unknown error"`. -/
def module_sym_call (addr : Option Nat) (m : ModuleC) (d0 : Option Diag)
    (load_ok : Bool) (msgpack_ok : Bool) (native_rc : Int)
    (native_diag : Option Diag) : SymCallRes :=
  if addr.isNone && !load_ok then ⟨-1, m, some Diag.external, none⟩
  else if !msgpack_ok then ⟨-1, m, some Diag.external, none⟩
  else
    let m1 : ModuleC := { m with calls := m.calls + 1 }
    let d1 : Option Diag :=
      match native_diag with
      | some e => some e
      | none => d0
    let m2 : ModuleC := { m1 with calls := m1.calls - 1 }
    let m3 := module_gc m2
    if native_rc ≠ 0 then
      match d1 with
      | none => ⟨-1, m3, some (Diag.clientError "unknown error"), some m1.calls⟩
      | some e => ⟨-1, m3, some e, some m1.calls⟩
    else ⟨native_rc, m3, d1, some m1.calls⟩

/-! ## func_call (`func.c`) -/

structure FuncCallRes where
  rc : Int
  /-- The task's effective credentials after `func_call` returns. -/
  user : Nat
  /-- The effective credentials while `base->vtab->call` ran; `none`
  when the call was never reached. -/
  user_at_call : Option Nat
deriving Repr, DecidableEq

/-- `func_call` (func.c:178-211).  Credentials are abstract naturals;
`user0` is the task's effective user on entry, `owner_creds` the cached
owner credentials (`none` = `credentials_is_empty`), `user_find_ok` /
`owner_user` the outcome of the lazy `user_find` + `credentials_reset`.
The access check is external (`access_ok`).  A nested call net-preserves
the task user, so the vtable call is modelled as returning `call_rc`
and leaving the user as set. -/
def func_call (setuid : Bool) (access_ok : Bool) (owner_creds : Option Nat)
    (user_find_ok : Bool) (owner_user : Nat) (call_rc : Int) (user0 : Nat) :
    FuncCallRes :=
  if !access_ok then ⟨-1, user0, none⟩
  else if setuid then
    -- orig_credentials = effective_user()
    let orig := user0
    let resolved : Option Nat :=
      match owner_creds with
      | some c => some c
      | none => if user_find_ok then some owner_user else none
    match resolved with
    | none =>
      -- user_find failed before fiber_set_user: return -1, no switch
      ⟨-1, user0, none⟩
    | some oc =>
      -- fiber_set_user(fiber(), &base->owner_credentials)
      let during := oc
      let rc := call_rc
      -- restore the original user on return (orig_credentials != NULL)
      ⟨rc, orig, some during⟩
  else
    -- orig_credentials == NULL: no switch, no restore
    ⟨call_rc, user0, some user0⟩

/-! ## Monotonicity of the recovery vclock -/

theorem recover_xlog_vclock_mono (force : Bool) (writeOk : Row → Bool)
    (stop : Option Vclock) (final_rc : Int) :
    ∀ (rows : List Row) (v : Vclock) (d : Option Diag),
      vclock_le v (recover_xlog force writeOk stop final_rc rows v d).vclock := by
  intro rows
  induction rows with
  | nil => intro v d; exact vclock_le_refl v
  | cons row rest ih =>
    intro v d
    simp only [recover_xlog]
    split
    · exact vclock_le_refl v
    · split
      · exact ih v d
      · rename_i hnew
        have hstep : vclock_le v (vclock_set v row.replica_id row.lsn) :=
          vclock_le_set (le_of_lt (lt_of_not_le hnew))
        split
        · exact vclock_le_trans hstep (ih _ d)
        · split
          · exact vclock_le_trans hstep (ih _ (some Diag.external))
          · exact hstep

theorem recovery_close_log_vclock (r : Recovery) (t : Bool) :
    (recovery_close_log r t).1.vclock = r.vclock := by
  unfold recovery_close_log
  split <;> [skip; rfl]
  split <;> rfl

theorem recovery_open_log_vclock_mono (r : Recovery) (seg : Segment) :
    vclock_le r.vclock (recovery_open_log r seg).1.vclock := by
  unfold recovery_open_log
  simp only []
  split
  · rw [recovery_close_log_vclock]
    exact vclock_le_refl _
  · split
    · simp only [recovery_close_log_vclock]
      exact vclock_le_refl _
    · split
      · rename_i hlt
        simp only [recovery_close_log_vclock] at hlt
        exact vclock_compare_lt_zero hlt
      · simp only [recovery_close_log_vclock]
        exact vclock_le_refl _

theorem rrw_loop_vclock_mono (writeOk : Row → Bool) (stop : Option Vclock) :
    ∀ (segs : List Segment) (r : Recovery),
      vclock_le r.vclock (rrw_loop writeOk stop r segs).r.vclock := by
  intro segs
  induction segs with
  | nil => intro r; exact vclock_le_refl _
  | cons seg rest ih =>
    intro r
    simp only [rrw_loop]
    split
    · exact vclock_le_refl _
    · split
      · exact ih r
      · split
        · exact recovery_open_log_vclock_mono r seg
        · have hopen := recovery_open_log_vclock_mono r seg
          have hx := recover_xlog_vclock_mono
            (recovery_open_log r seg).1.force_recovery writeOk stop
            (recovery_open_log r seg).1.cursor_read_rc
            (recovery_open_log r seg).1.cursor_rows
            (recovery_open_log r seg).1.vclock
            (recovery_open_log r seg).1.diag
          split
          · exact vclock_le_trans hopen hx
          · exact vclock_le_trans (vclock_le_trans hopen hx) (ih _)

theorem rrw_before_final_vclock_mono (writeOk : Row → Bool) (r : Recovery)
    (dir : List Segment) (stop : Option Vclock)
    (scan_dir scan_ok final_trigger_ok : Bool) :
    vclock_le r.vclock
      (rrw_before_final writeOk r dir stop scan_dir scan_ok final_trigger_ok).r.vclock := by
  unfold rrw_before_final
  split
  · exact vclock_le_refl _
  · have hloop : ∀ res : RRes, vclock_le r.vclock res.r.vclock →
        vclock_le r.vclock
          (if res.rc ≠ 0 then res
           else if cursor_is_eof res.r.cursor_state then
             let closed := recovery_close_log res.r final_trigger_ok
             if closed.2 ≠ 0 then ⟨closed.1, res.emitted, -1⟩
             else ⟨closed.1, res.emitted, 0⟩
           else res).r.vclock := by
      intro res hres
      split
      · exact hres
      · split
        · simp only []
          split
          · simpa only [recovery_close_log_vclock] using hres
          · simpa only [recovery_close_log_vclock] using hres
        · exact hres
    apply hloop
    split
    · split
      · have hx := recover_xlog_vclock_mono r.force_recovery writeOk stop
          r.cursor_read_rc r.cursor_rows r.vclock r.diag
        simp only []
        split
        · exact hx
        · exact vclock_le_trans hx (rrw_loop_vclock_mono writeOk stop _ _)
      · exact rrw_loop_vclock_mono writeOk stop _ _
    · exact rrw_loop_vclock_mono writeOk stop _ _

theorem recover_remaining_wals_vclock_mono (writeOk : Row → Bool) (r : Recovery)
    (dir : List Segment) (stop : Option Vclock)
    (scan_dir scan_ok final_trigger_ok : Bool) :
    vclock_le r.vclock
      (recover_remaining_wals writeOk r dir stop scan_dir scan_ok
        final_trigger_ok).r.vclock := by
  unfold recover_remaining_wals
  have hbase := rrw_before_final_vclock_mono writeOk r dir stop scan_dir scan_ok
    final_trigger_ok
  simp only []
  split
  · exact hbase
  · split
    · split
      · exact hbase
      · exact hbase
    · exact hbase

theorem recovery_scan_vclock (r : Recovery) (scan_ok : Bool)
    (dir_last : Option Vclock) (dir_first : Vclock) (last_rows : List Row)
    (open_cursor_ok : Bool) :
    (recovery_scan r scan_ok dir_last dir_first last_rows open_cursor_ok).1.vclock
      = r.vclock := by
  unfold recovery_scan
  split
  · rfl
  · split
    · rfl
    · split
      · rfl
      · split
        · rfl
        · rfl

/-! ## Claims -/

/-- Old module for the reload scenario: package `m`, exports `f` and
`g`, two attached bindings `m.f` and `m.g`, no call in flight. -/
def reloadOldDemo : ModuleR :=
  ⟨0, [("f", 1), ("g", 2)],
   [⟨"m.f", some 1, some 0⟩, ⟨"m.g", some 2, some 0⟩], 0⟩

/-- C1: evaluation of `module_reload` at the failing input: the old
module has bindings `m.f` and `m.g`; the freshly loaded copy exports
only `f`, so `m.f` is moved to the new module and then binding `m.g`
fails.  The claim (and the spec) say the rollback re-resolves every
already-moved binding against the old module and reattaches it, leaving
the old module with all of its original bindings; the code's rollback
loop runs exactly once, so the old module ends with only `m.g`, the
binding `m.f` is still attached to the new module when
`module_delete(new)` destroys it, and the code's own
`assert(rlist_empty(&new->mod_sym_head))` is violated
(`assertHolds = false`). -/
theorem module_reload_rollback_loses_moved_bindings :
    module_reload [("m", reloadOldDemo)] "m" (some [("f", 10)]) 1 true =
      ReloadResult.rolledBack
        ⟨0, [("f", 1), ("g", 2)], [⟨"m.g", some 2, some 0⟩], 0⟩
        [⟨"m.f", some 10, some 1⟩] false := by
  rfl

/-- C10: evaluation of `recovery_new` at the failing input (allocation
failure): the `OutOfMemory` diagnostic is set, but instead of returning
`NULL` the function falls through and passes `&r->wal_dir` of the null
pointer to `xdir_create`, which writes through it. -/
theorem recovery_new_oom_falls_through :
    recovery_new false true false [] =
      RecoveryNewRes.nullDeref (some Diag.outOfMemory) := by
  rfl

/-- C4: a row whose lsn is at most the recovery vclock's component for
its replica id is skipped by `recover_xlog`: the replay of the
remaining rows proceeds from the same vclock and the row is not emitted
— the whole run equals the run without that row. -/
theorem recover_xlog_skips_applied_row (force : Bool) (writeOk : Row → Bool)
    (stop : Option Vclock) (final_rc : Int) (row : Row) (rest : List Row)
    (v : Vclock) (d : Option Diag)
    (hstop : stop_reached stop v = false)
    (happlied : row.lsn ≤ vclock_get v row.replica_id) :
    recover_xlog force writeOk stop final_rc (row :: rest) v d =
      recover_xlog force writeOk stop final_rc rest v d := by
  simp [recover_xlog, hstop, happlied]

theorem recover_xlog_skips_applied_row_witness :
    stop_reached none [5] = false ∧
    (3:Int) ≤ vclock_get [5] 0 ∧
    recover_xlog true (fun _ => true) none 1
        [{ replica_id := 0, lsn := 3 }] [5] none =
      recover_xlog true (fun _ => true) none 1 [] [5] none := by
  refine ⟨rfl, by decide, ?_⟩
  exact recover_xlog_skips_applied_row true (fun _ => true) none 1
    ⟨0, 3⟩ [] [5] none rfl (by decide)

/-- C2: a row that survives the stop and already-applied checks first
advances the recovery vclock via follow (its component becomes the
row's lsn) and only then is written to the stream; consequently, under
force_recovery a row whose stream write fails is skipped (the emitted
rows are exactly those of the remaining replay) while the final
recovery vclock stays at or past the failed row's lsn. -/
theorem recover_xlog_follows_before_emit (force : Bool) (writeOk : Row → Bool)
    (stop : Option Vclock) (final_rc : Int) (row : Row) (rest : List Row)
    (v : Vclock) (d : Option Diag)
    (hstop : stop_reached stop v = false)
    (hnew : vclock_get v row.replica_id < row.lsn) :
    vclock_get (vclock_set v row.replica_id row.lsn) row.replica_id = row.lsn ∧
    recover_xlog force writeOk stop final_rc (row :: rest) v d =
      (if writeOk row then
        { recover_xlog force writeOk stop final_rc rest
            (vclock_set v row.replica_id row.lsn) d with
          emitted := row :: (recover_xlog force writeOk stop final_rc rest
            (vclock_set v row.replica_id row.lsn) d).emitted }
       else if force then
         recover_xlog force writeOk stop final_rc rest
           (vclock_set v row.replica_id row.lsn) (some Diag.external)
       else
         ⟨vclock_set v row.replica_id row.lsn, [], -1, rest, false,
           some Diag.external⟩) ∧
    (force = true → writeOk row = false →
      (recover_xlog force writeOk stop final_rc (row :: rest) v d).emitted =
        (recover_xlog force writeOk stop final_rc rest
          (vclock_set v row.replica_id row.lsn) (some Diag.external)).emitted ∧
      row.lsn ≤ vclock_get
        (recover_xlog force writeOk stop final_rc (row :: rest) v d).vclock
        row.replica_id) := by
  have hn : ¬ row.lsn ≤ vclock_get v row.replica_id := not_le.mpr hnew
  have hunfold : recover_xlog force writeOk stop final_rc (row :: rest) v d =
      (if writeOk row then
        { recover_xlog force writeOk stop final_rc rest
            (vclock_set v row.replica_id row.lsn) d with
          emitted := row :: (recover_xlog force writeOk stop final_rc rest
            (vclock_set v row.replica_id row.lsn) d).emitted }
       else if force then
         recover_xlog force writeOk stop final_rc rest
           (vclock_set v row.replica_id row.lsn) (some Diag.external)
       else
         ⟨vclock_set v row.replica_id row.lsn, [], -1, rest, false,
           some Diag.external⟩) := by
    simp [recover_xlog, hstop, hn]
  refine ⟨vclock_get_set_self row.replica_id v row.lsn, hunfold, ?_⟩
  intro hforce hfail
  rw [hunfold, hfail, hforce]
  simp only [Bool.false_eq_true, if_false, if_true]
  constructor
  · trivial
  · have hmono := recover_xlog_vclock_mono force writeOk stop final_rc rest
      (vclock_set v row.replica_id row.lsn) (some Diag.external)
    have hat := hmono row.replica_id
    rw [vclock_get_set_self] at hat
    rw [hforce] at hat
    exact hat

theorem recover_xlog_follows_before_emit_witness :
    stop_reached none [] = false ∧
    vclock_get [] 1 < (5:Int) ∧
    ((recover_xlog true (fun _ => false) none 1
        [{ replica_id := 1, lsn := 5 }] [] none).emitted = [] ∧
      (5:Int) ≤ vclock_get
        (recover_xlog true (fun _ => false) none 1
          [{ replica_id := 1, lsn := 5 }] [] none).vclock 1) := by
  refine ⟨rfl, by decide, ?_⟩
  have h := recover_xlog_follows_before_emit true (fun _ => false) none 1
    ⟨1, 5⟩ [] [] none rfl (by decide)
  have h3 := h.2.2 rfl rfl
  exact ⟨by rw [h3.1]; rfl, h3.2⟩

/-- C3: the final-position check of `recover_remaining_wals`: when the
run reaches it with a non-null `stop_vclock` and the recovery vclock
differs from it, `XlogGapError` is set and the run fails — for any
value of `force_recovery`, permissive mode included. -/
theorem recover_remaining_wals_final_position_check (writeOk : Row → Bool)
    (r : Recovery) (dir : List Segment) (s : Vclock)
    (scan_dir scan_ok final_trigger_ok : Bool)
    (h0 : (rrw_before_final writeOk r dir (some s) scan_dir scan_ok
        final_trigger_ok).rc = 0)
    (hne : vclock_compare (rrw_before_final writeOk r dir (some s) scan_dir
        scan_ok final_trigger_ok).r.vclock s ≠ 0) :
    (recover_remaining_wals writeOk r dir (some s) scan_dir scan_ok
        final_trigger_ok).rc = -1 ∧
    (recover_remaining_wals writeOk r dir (some s) scan_dir scan_ok
        final_trigger_ok).r.diag =
      some (Diag.xlogGap
        (rrw_before_final writeOk r dir (some s) scan_dir scan_ok
          final_trigger_ok).r.vclock s) := by
  unfold recover_remaining_wals
  simp [h0, hne]

/-- A permissive (`force_recovery = true`) recovery over an empty
directory, cursor closed, positioned at vclock `{0: 0}`. -/
def rcDemo : Recovery := ⟨[0], true, .CLOSED, [], none, [], 1, false, none⟩

theorem recover_remaining_wals_final_position_check_witness :
    rcDemo.force_recovery = true ∧
    (rrw_before_final (fun _ => true) rcDemo [] (some [5]) false true true).rc
      = 0 ∧
    vclock_compare
      (rrw_before_final (fun _ => true) rcDemo [] (some [5]) false true
        true).r.vclock [5] ≠ 0 ∧
    ((recover_remaining_wals (fun _ => true) rcDemo [] (some [5]) false true
        true).rc = -1 ∧
      (recover_remaining_wals (fun _ => true) rcDemo [] (some [5]) false true
        true).r.diag = some (Diag.xlogGap
          (rrw_before_final (fun _ => true) rcDemo [] (some [5]) false true
            true).r.vclock [5])) := by
  refine ⟨rfl, by decide, by decide, ?_⟩
  exact recover_remaining_wals_final_position_check (fun _ => true) rcDemo []
    [5] false true true (by decide) (by decide)

theorem recovery_close_log_rc_ok (r : Recovery) :
    (recovery_close_log r true).2 = 0 := by
  unfold recovery_close_log
  split <;> rfl

theorem recovery_close_log_diag_ok (r : Recovery) :
    (recovery_close_log r true).1.diag = r.diag := by
  unfold recovery_close_log
  split <;> rfl

theorem vclock_compare_not_lt_comparable {a b : Vclock}
    (h1 : ¬ vclock_compare a b < 0)
    (h2 : vclock_compare a b ≠ VCLOCK_ORDER_UNDEFINED) : vclock_le b a := by
  rcases vclock_compare_cases a b with ⟨_, _, hba⟩ | ⟨he, _⟩ | ⟨_, hba⟩ | he
  · exact hba
  · rw [he] at h1
    exact absurd (by decide) h1
  · exact hba
  · exact absurd he h2

theorem recovery_open_log_rc (r : Recovery) (seg : Segment)
    (hopen : seg.open_ok = true) (htrig : seg.close_trigger_ok = true) :
    (recovery_open_log r seg).2 =
      (if open_log_gap r seg then (if r.force_recovery then 0 else -1)
       else 0) := by
  unfold recovery_open_log
  rw [htrig, hopen]
  simp only [recovery_close_log_rc_ok, ne_eq, not_true_eq_false,
    Bool.not_true, Bool.false_eq_true, if_false]
  split <;> rfl

theorem recovery_open_log_vclock_eq (r : Recovery) (seg : Segment)
    (hopen : seg.open_ok = true) (htrig : seg.close_trigger_ok = true) :
    (recovery_open_log r seg).1.vclock =
      (if vclock_compare r.vclock seg.vclock < 0 then seg.vclock
       else r.vclock) := by
  unfold recovery_open_log
  rw [htrig, hopen]
  simp only [recovery_close_log_rc_ok, ne_eq, not_true_eq_false,
    Bool.not_true, Bool.false_eq_true, if_false, recovery_close_log_vclock]
  split <;> simp only [recovery_close_log_vclock]

theorem recovery_open_log_gap_diag (r : Recovery) (seg : Segment)
    (hopen : seg.open_ok = true) (htrig : seg.close_trigger_ok = true)
    (hgap : open_log_gap r seg = true) :
    (recovery_open_log r seg).1.diag =
      some (Diag.xlogGap r.vclock seg.vclock) := by
  unfold recovery_open_log
  rw [htrig, hopen]
  simp only [recovery_close_log_rc_ok, ne_eq, not_true_eq_false,
    Bool.not_true, Bool.false_eq_true, if_false, hgap, if_true]
  split <;> rfl

/-- The recovery state and segment of the C5 counterexample: a
permissive first open (`cursor_state = NEW`) where the segment's
starting vclock `{1: 3}` is incomparable with the recovery vclock
`{0: 5}`. -/
def gapRecDemo : Recovery := ⟨[5], true, .NEW, [], none, [], 1, false, none⟩

def gapSegDemo : Segment := ⟨[0, 3], none, [], 1, true, true, true⟩

/-- C5 counterexample: the claim says the recovery vclock is advanced
to at least the opened segment's starting vclock in every case.  Here
the open succeeds (gap detected, force_recovery on, so only logged),
yet the resulting vclock `{0: 5}` is not at least the segment's
`{1: 3}`: for incomparable clocks `vclock_compare` is not `< 0` and the
promotion in the `out:` epilogue is skipped. -/
theorem recovery_open_log_no_promote_incomparable :
    (recovery_open_log gapRecDemo gapSegDemo).2 = 0 ∧
    open_log_gap gapRecDemo gapSegDemo = true ∧
    ¬ vclock_le gapSegDemo.vclock
      (recovery_open_log gapRecDemo gapSegDemo).1.vclock := by
  refine ⟨by decide, by decide, fun h => absurd (h 1) (by decide)⟩

/-- C5 (amended): with the close triggers and the segment open
succeeding, `recovery_open_log` fails exactly on a gap in strict mode
(a gap being: first segment with starting vclock greater than or
incomparable with the recovery vclock, or a set `prev_vclock` differing
from the previously scanned segment's starting vclock); a gap always
sets the gap diagnostic (in permissive mode it is merely logged); and
the recovery vclock is promoted to the segment's starting vclock
exactly when it compares strictly less than it — so it never decreases,
and whenever the two clocks are comparable it ends at least the
segment's starting vclock. -/
theorem recovery_open_log_gap_and_promotion (r : Recovery) (seg : Segment)
    (hopen : seg.open_ok = true) (htrig : seg.close_trigger_ok = true) :
    ((recovery_open_log r seg).2 = -1 ↔
      (open_log_gap r seg = true ∧ r.force_recovery = false)) ∧
    (open_log_gap r seg = true →
      (recovery_open_log r seg).1.diag =
        some (Diag.xlogGap r.vclock seg.vclock)) ∧
    ((recovery_open_log r seg).1.vclock =
      (if vclock_compare r.vclock seg.vclock < 0 then seg.vclock
       else r.vclock)) ∧
    vclock_le r.vclock (recovery_open_log r seg).1.vclock ∧
    (vclock_compare r.vclock seg.vclock ≠ VCLOCK_ORDER_UNDEFINED →
      vclock_le seg.vclock (recovery_open_log r seg).1.vclock) := by
  refine ⟨?_, recovery_open_log_gap_diag r seg hopen htrig,
    recovery_open_log_vclock_eq r seg hopen htrig,
    recovery_open_log_vclock_mono r seg, ?_⟩
  · rw [recovery_open_log_rc r seg hopen htrig]
    by_cases hgap : open_log_gap r seg = true
    · cases hforce : r.force_recovery
      · simp [hgap, hforce]
      · simp [hgap, hforce]
    · simp only [Bool.not_eq_true] at hgap
      simp [hgap]
  · intro hcomp
    rw [recovery_open_log_vclock_eq r seg hopen htrig]
    by_cases hlt : vclock_compare r.vclock seg.vclock < 0
    · simp only [hlt, if_true]
      exact vclock_le_refl _
    · simp only [hlt, if_false]
      exact vclock_compare_not_lt_comparable hlt hcomp

theorem recovery_open_log_gap_and_promotion_witness :
    gapSegDemo.open_ok = true ∧ gapSegDemo.close_trigger_ok = true ∧
    ((recovery_open_log gapRecDemo gapSegDemo).2 = -1 ↔
      (open_log_gap gapRecDemo gapSegDemo = true ∧
        gapRecDemo.force_recovery = false)) ∧
    ((recovery_open_log gapRecDemo gapSegDemo).1.vclock =
      (if vclock_compare gapRecDemo.vclock gapSegDemo.vclock < 0 then
        gapSegDemo.vclock
       else gapRecDemo.vclock)) := by
  have h := recovery_open_log_gap_and_promotion gapRecDemo gapSegDemo rfl rfl
  exact ⟨rfl, rfl, h.1, h.2.2.1⟩

/-- C6: the recovery vclock is monotone across the operations of the
recovery engine: replaying rows (`recover_xlog`), opening a segment
(`recovery_open_log`) and the whole replay driver
(`recover_remaining_wals`) only ever grow every component of the
vclock, and scanning (`recovery_scan`) leaves it unchanged. -/
theorem recovery_vclock_monotone :
    (∀ (force : Bool) (writeOk : Row → Bool) (stop : Option Vclock)
        (final_rc : Int) (rows : List Row) (v : Vclock) (d : Option Diag),
      vclock_le v (recover_xlog force writeOk stop final_rc rows v d).vclock) ∧
    (∀ (r : Recovery) (seg : Segment),
      vclock_le r.vclock (recovery_open_log r seg).1.vclock) ∧
    (∀ (writeOk : Row → Bool) (r : Recovery) (dir : List Segment)
        (stop : Option Vclock) (scan_dir scan_ok final_trigger_ok : Bool),
      vclock_le r.vclock
        (recover_remaining_wals writeOk r dir stop scan_dir scan_ok
          final_trigger_ok).r.vclock) ∧
    (∀ (r : Recovery) (scan_ok : Bool) (dir_last : Option Vclock)
        (dir_first : Vclock) (last_rows : List Row) (open_cursor_ok : Bool),
      (recovery_scan r scan_ok dir_last dir_first last_rows
        open_cursor_ok).1.vclock = r.vclock) :=
  ⟨recover_xlog_vclock_mono, recovery_open_log_vclock_mono,
   recover_remaining_wals_vclock_mono, recovery_scan_vclock⟩

/-- C7: in `module_sym_call` the module's live-call counter is
incremented just before the native function runs (the counter seen by
the call is one above the entry value) and decremented right after it
on every exit path (the returned module has the entry value back), and
`module_gc` destroys a module only when its binding list is empty and
its live-call counter is zero — so a module with a call in flight
(`calls > 0`) is never released. -/
theorem module_sym_call_live_calls (addr : Option Nat) (m : ModuleC)
    (d0 : Option Diag) (load_ok msgpack_ok : Bool) (native_rc : Int)
    (native_diag : Option Diag)
    (hcall : addr.isNone = false ∨ load_ok = true)
    (hmsg : msgpack_ok = true) :
    (module_sym_call addr m d0 load_ok msgpack_ok native_rc
        native_diag).calls_at_call = some (m.calls + 1) ∧
    (module_sym_call addr m d0 load_ok msgpack_ok native_rc
        native_diag).module.calls = m.calls ∧
    ((module_sym_call addr m d0 load_ok msgpack_ok native_rc
        native_diag).module.alive
      = (m.alive && !(m.mod_sym_head.isEmpty && m.calls == 0))) ∧
    (∀ m2 : ModuleC, 0 < m2.calls → module_gc m2 = m2) := by
  have hguard : (addr.isNone && !load_ok) = false := by
    rcases hcall with h | h
    · simp [h]
    · simp [h]
  have hgc : ∀ m2 : ModuleC, 0 < m2.calls → module_gc m2 = m2 := by
    intro m2 hpos
    unfold module_gc
    have : (m2.calls == 0) = false := by
      simp only [beq_eq_false_iff_ne, ne_eq]
      omega
    simp [this]
  have hcalls : ∀ m2 : ModuleC, (module_gc m2).calls = m2.calls := by
    intro m2
    unfold module_gc
    split <;> rfl
  unfold module_sym_call
  rw [hguard, hmsg]
  simp only [Bool.false_eq_true, if_false, Bool.not_true, Nat.add_sub_cancel]
  refine ?_
  have halive : (module_gc { m with calls := m.calls }).alive
      = (m.alive && !(m.mod_sym_head.isEmpty && m.calls == 0)) := by
    unfold module_gc
    by_cases hc : (m.mod_sym_head.isEmpty && m.calls == 0) = true
    · simp [hc]
    · simp only [Bool.not_eq_true] at hc
      simp [hc]
  split
  · split
    · exact ⟨rfl, hcalls _, halive, hgc⟩
    · exact ⟨rfl, hcalls _, halive, hgc⟩
  · exact ⟨rfl, hcalls _, halive, hgc⟩

theorem module_sym_call_live_calls_witness :
    ((some 7 : Option Nat).isNone = false ∨ true = true) ∧
    (module_sym_call (some 7) ⟨["m.f"], 2, true⟩ none true true 1
        none).calls_at_call = some 3 ∧
    (module_sym_call (some 7) ⟨["m.f"], 2, true⟩ none true true 1
        none).module.calls = 2 ∧
    (module_sym_call (some 7) ⟨["m.f"], 2, true⟩ none true true 1
        none).module.alive = true := by
  have h := module_sym_call_live_calls (some 7) ⟨["m.f"], 2, true⟩ none true
    true 1 none (Or.inl rfl) rfl
  exact ⟨Or.inl rfl, h.1, h.2.1, by rw [h.2.2.1]; decide⟩

/-- C8: the diagnostic policy of `module_sym_call` (entered with no
pending task diagnostic): a non-zero return with a callee-set
diagnostic keeps that diagnostic and reports failure; a non-zero return
with no diagnostic set gets the synthetic `"unknown error"` client
error and reports failure; a zero return produces no synthetic
diagnostic (the task diagnostic is exactly what the callee left) and
succeeds. -/
theorem module_sym_call_diag_policy (addr : Option Nat) (m : ModuleC)
    (load_ok msgpack_ok : Bool) (native_rc : Int) (native_diag : Option Diag)
    (hcall : addr.isNone = false ∨ load_ok = true)
    (hmsg : msgpack_ok = true) :
    (∀ e, native_diag = some e → native_rc ≠ 0 →
      (module_sym_call addr m none load_ok msgpack_ok native_rc
          native_diag).diag = some e ∧
      (module_sym_call addr m none load_ok msgpack_ok native_rc
          native_diag).rc = -1) ∧
    (native_diag = none → native_rc ≠ 0 →
      (module_sym_call addr m none load_ok msgpack_ok native_rc
          native_diag).diag = some (Diag.clientError "unknown error") ∧
      (module_sym_call addr m none load_ok msgpack_ok native_rc
          native_diag).rc = -1) ∧
    (native_rc = 0 →
      (module_sym_call addr m none load_ok msgpack_ok native_rc
          native_diag).diag = native_diag ∧
      (module_sym_call addr m none load_ok msgpack_ok native_rc
          native_diag).rc = 0) := by
  have hguard : (addr.isNone && !load_ok) = false := by
    rcases hcall with h | h
    · simp [h]
    · simp [h]
  unfold module_sym_call
  rw [hguard, hmsg]
  simp only [Bool.false_eq_true, if_false, Bool.not_true]
  refine ⟨?_, ?_, ?_⟩
  · intro e he hrc
    subst he
    simp [hrc]
  · intro he hrc
    subst he
    simp [hrc]
  · intro hrc
    subst hrc
    cases native_diag <;> simp

theorem module_sym_call_diag_policy_witness :
    ((some 7 : Option Nat).isNone = false ∨ true = true) ∧
    (module_sym_call (some 7) ⟨["m.f"], 0, true⟩ none true true 1
        none).diag = some (Diag.clientError "unknown error") ∧
    (module_sym_call (some 7) ⟨["m.f"], 0, true⟩ none true true 1
        none).rc = -1 := by
  have h := module_sym_call_diag_policy (some 7) ⟨["m.f"], 0, true⟩ true true
    1 none (Or.inl rfl) rfl
  have h2 := h.2.1 rfl (by decide)
  exact ⟨Or.inl rfl, h2.1, h2.2⟩

/-- C9: `func_call` leaves the task's effective credentials exactly as
they were on entry, on every exit path (access denial, owner-resolution
failure, and after the call whether it failed or succeeded); for a
setuid function that reaches the call, the call itself runs under the
owner's credentials (cached, or freshly resolved on first use), and for
a non-setuid function the call runs under the caller's own
credentials. -/
theorem func_call_identity (setuid access_ok : Bool) (owner_creds : Option Nat)
    (user_find_ok : Bool) (owner_user : Nat) (call_rc : Int) (user0 : Nat) :
    (func_call setuid access_ok owner_creds user_find_ok owner_user call_rc
        user0).user = user0 ∧
    (access_ok = true → setuid = false →
      (func_call setuid access_ok owner_creds user_find_ok owner_user call_rc
          user0).user_at_call = some user0 ∧
      (func_call setuid access_ok owner_creds user_find_ok owner_user call_rc
          user0).rc = call_rc) ∧
    (access_ok = true → setuid = true →
      ∀ c, owner_creds = some c →
        (func_call setuid access_ok owner_creds user_find_ok owner_user
            call_rc user0).user_at_call = some c ∧
        (func_call setuid access_ok owner_creds user_find_ok owner_user
            call_rc user0).rc = call_rc) ∧
    (access_ok = true → setuid = true → owner_creds = none →
      user_find_ok = true →
        (func_call setuid access_ok owner_creds user_find_ok owner_user
            call_rc user0).user_at_call = some owner_user ∧
        (func_call setuid access_ok owner_creds user_find_ok owner_user
            call_rc user0).rc = call_rc) := by
  refine ⟨?_, ?_, ?_, ?_⟩
  · unfold func_call
    cases haccess : access_ok
    · rfl
    · cases hsetuid : setuid
      · rfl
      · simp only [Bool.not_true, Bool.false_eq_true, if_false, if_true]
        cases owner_creds with
        | none =>
          cases user_find_ok
          · rfl
          · rfl
        | some c => rfl
  · intro ha hs
    subst ha
    subst hs
    unfold func_call
    exact ⟨rfl, rfl⟩
  · intro ha hs c hc
    subst ha
    subst hs
    subst hc
    unfold func_call
    exact ⟨rfl, rfl⟩
  · intro ha hs hc hf
    subst ha
    subst hs
    subst hc
    subst hf
    unfold func_call
    exact ⟨rfl, rfl⟩

theorem func_call_identity_witness :
    (func_call true true none true 7 (-1) 3).user = 3 ∧
    (func_call true true none true 7 (-1) 3).user_at_call = some 7 ∧
    (func_call true true none true 7 (-1) 3).rc = -1 := by
  have h := func_call_identity true true none true 7 (-1) 3
  have h4 := h.2.2.2 rfl rfl rfl rfl
  exact ⟨h.1, h4.1, h4.2⟩

end Tnt
